import Mathlib

/-!
Verification development for the Situation Room fleet telemetry and control
subsystem.  The Python sources under backend/app and agent/ are shallowly
embedded: pure logic becomes Lean functions, database tables become lists of
row structures, and wall-clock instants become naturals counting seconds.
Floating point latencies and coordinates are abstracted to naturals resp.
integers; no claim depends on their arithmetic.
-/

namespace SituationRoom

/-- Status enum of a service check (models/service_check.py, `ServiceCheckStatus`). -/
inductive ServiceCheckStatus
  | passing
  | failing
  | unknown
deriving DecidableEq

/-- A service check definition plus its cached run state
(models/service_check.py, `ServiceCheck`).  Timestamps are seconds as
naturals, `None` columns are `Option`. -/
structure ServiceCheck where
  id : Nat
  name : String
  description : Option String
  check_type : String
  is_enabled : Bool
  target : String
  expected_status_code : Option Int
  expected_content : Option String
  proxy_address : Option String
  dns_server : Option String
  expected_ip : Option String
  dns_record_type : Option String
  timeout_seconds : Nat
  interval_seconds : Nat
  failure_threshold : Nat
  alert_interval_hours : Nat
  assigned_agent : Option String
  current_status : ServiceCheckStatus
  consecutive_failures : Nat
  last_check_time : Option Nat
  last_success_time : Option Nat
  last_failure_time : Option Nat
  last_latency_ms : Option Nat
  is_alerting : Bool
  last_alert_time : Option Nat
  alert_count : Nat
deriving DecidableEq

/-- One immutable check execution record (models/service_check.py,
`ServiceCheckResult`). -/
structure ServiceCheckResult where
  check_id : Nat
  agent_hostname : String
  is_success : Bool
  latency_ms : Option Nat
  status_code : Option Int
  response_body : Option String
  error_message : Option String
  check_time : Nat
deriving DecidableEq

/-- One immutable alert record (models/service_check.py, `ServiceCheckAlert`).
The `discord_sent` / `email_sent` delivery flags are set by external
fire-and-forget notification calls and are not modelled. -/
structure ServiceCheckAlert where
  check_id : Nat
  check_name : String
  alert_type : String
  message : String
  consecutive_failures : Nat
  alert_time : Nat
deriving DecidableEq

/-- Constructor arguments of `ServiceCheckService.create_check`
(service_check.py).  The Python defaults (timeout 30, interval 300,
threshold 2, re-alert 6h) are supplied by callers here. -/
structure CreateCheckParams where
  name : String
  description : Option String
  check_type : String
  target : String
  expected_status_code : Option Int
  expected_content : Option String
  proxy_address : Option String
  dns_server : Option String
  expected_ip : Option String
  dns_record_type : Option String
  timeout_seconds : Nat
  interval_seconds : Nat
  failure_threshold : Nat
  alert_interval_hours : Nat
  assigned_agent : Option String
deriving DecidableEq

/-- `ServiceCheckService.create_check`: a fresh check starts with status
`unknown` and the column defaults of the model (no failures, not alerting,
enabled). -/
def create_check (id : Nat) (p : CreateCheckParams) : ServiceCheck :=
  { id := id
    name := p.name
    description := p.description
    check_type := p.check_type
    is_enabled := true
    target := p.target
    expected_status_code := p.expected_status_code
    expected_content := p.expected_content
    proxy_address := p.proxy_address
    dns_server := p.dns_server
    expected_ip := p.expected_ip
    dns_record_type := p.dns_record_type
    timeout_seconds := p.timeout_seconds
    interval_seconds := p.interval_seconds
    failure_threshold := p.failure_threshold
    alert_interval_hours := p.alert_interval_hours
    assigned_agent := p.assigned_agent
    current_status := ServiceCheckStatus.unknown
    consecutive_failures := 0
    last_check_time := none
    last_success_time := none
    last_failure_time := none
    last_latency_ms := none
    is_alerting := false
    last_alert_time := none
    alert_count := 0 }

/-- The keyword arguments accepted by `ServiceCheckService.update_check`;
`none` means the field is absent from `kwargs` (its `allowed_fields` set
contains exactly these fields — no run-state field is writable). -/
structure ServiceCheckUpdate where
  name : Option String
  description : Option (Option String)
  check_type : Option String
  target : Option String
  is_enabled : Option Bool
  expected_status_code : Option (Option Int)
  expected_content : Option (Option String)
  proxy_address : Option (Option String)
  dns_server : Option (Option String)
  expected_ip : Option (Option String)
  dns_record_type : Option (Option String)
  timeout_seconds : Option Nat
  interval_seconds : Option Nat
  failure_threshold : Option Nat
  alert_interval_hours : Option Nat
  assigned_agent : Option (Option String)
deriving DecidableEq

/-- An update with no field present (empty `kwargs`). -/
def ServiceCheckUpdate.empty : ServiceCheckUpdate :=
  ⟨none, none, none, none, none, none, none, none,
   none, none, none, none, none, none, none, none⟩

/-- `ServiceCheckService.update_check` applied to a found check: every
present allowed field is overwritten, all run-state fields are untouched. -/
def update_check (check : ServiceCheck) (u : ServiceCheckUpdate) : ServiceCheck :=
  { check with
    name := u.name.getD check.name
    description := u.description.getD check.description
    check_type := u.check_type.getD check.check_type
    target := u.target.getD check.target
    is_enabled := u.is_enabled.getD check.is_enabled
    expected_status_code := u.expected_status_code.getD check.expected_status_code
    expected_content := u.expected_content.getD check.expected_content
    proxy_address := u.proxy_address.getD check.proxy_address
    dns_server := u.dns_server.getD check.dns_server
    expected_ip := u.expected_ip.getD check.expected_ip
    dns_record_type := u.dns_record_type.getD check.dns_record_type
    timeout_seconds := u.timeout_seconds.getD check.timeout_seconds
    interval_seconds := u.interval_seconds.getD check.interval_seconds
    failure_threshold := u.failure_threshold.getD check.failure_threshold
    alert_interval_hours := u.alert_interval_hours.getD check.alert_interval_hours
    assigned_agent := u.assigned_agent.getD check.assigned_agent }

/-- The failure alert message built in `_check_and_send_failure_alert`. -/
def failureMessage (check : ServiceCheck) (error_message : Option String) : String :=
  let base := "Check " ++ check.name ++ " has failed " ++
    toString check.consecutive_failures ++ " times. "
  match error_message with
  | some e => base ++ "Error: " ++ e
  | none => base ++ "Target: " ++ check.target

/-- `ServiceCheckService._check_and_send_failure_alert` (service_check.py):
below the threshold nothing happens; at the first crossing the alerting flag
is set and one failure alert is recorded; while alerting a further alert is
recorded only once `alert_interval_hours` have elapsed since the last alert.
Python computes `(now - last_alert_time).total_seconds() / 3600 >=
alert_interval_hours` with exact division, equivalent to the product
comparison used here. -/
def check_and_send_failure_alert (check : ServiceCheck)
    (error_message : Option String) (now : Nat) :
    ServiceCheck × List ServiceCheckAlert :=
  if check.consecutive_failures < check.failure_threshold then (check, [])
  else
    let sa :=
      if ¬ check.is_alerting then ({ check with is_alerting := true }, true)
      else
        match check.last_alert_time with
        | some lat => (check, decide (3600 * check.alert_interval_hours ≤ now - lat))
        | none => (check, false)
    let check := sa.1
    if sa.2 then
      let check := { check with
        last_alert_time := some now, alert_count := check.alert_count + 1 }
      (check,
        [{ check_id := check.id
           check_name := check.name
           alert_type := "failure"
           message := failureMessage check error_message
           consecutive_failures := check.consecutive_failures
           alert_time := now }])
    else (check, [])

/-- `ServiceCheckService._send_recovery_alert`: one recovery alert record,
`consecutive_failures` stored as 0, check state untouched. -/
def send_recovery_alert (check : ServiceCheck) (now : Nat) :
    List ServiceCheckAlert :=
  [{ check_id := check.id
     check_name := check.name
     alert_type := "recovery"
     message := "Check " ++ check.name ++
       " has recovered and is now passing. Target: " ++ check.target
     consecutive_failures := 0
     alert_time := now }]

/-- Inputs of `ServiceCheckService.record_result` apart from the check id
lookup and the two clock readings. -/
structure ResultInput where
  check_id : Nat
  agent_hostname : String
  is_success : Bool
  latency_ms : Option Nat
  status_code : Option Int
  response_body : Option String
  error_message : Option String
deriving DecidableEq

/-- The `response_body[:1024] if response_body else None` truncation in
`record_result`: an absent or empty body is stored as `None`, a non-empty
body keeps its first 1024 characters. -/
def truncateBody (rb : Option String) : Option String :=
  match rb with
  | some s => if s ≠ "" then some (s.take 1024) else none
  | none => none

/-- The check-state half of `record_result`: refresh the run state, then on
success reset the failure count (emitting a recovery alert if it was
alerting), on failure bump the count and consult the alert policy.
`check_time` is the reported execution instant, `now` is
`datetime.utcnow()` inside the alert helpers. -/
def record_result_state (check : ServiceCheck) (r : ResultInput)
    (check_time now : Nat) : ServiceCheck × List ServiceCheckAlert :=
  let check := { check with
    last_check_time := some check_time, last_latency_ms := r.latency_ms }
  if r.is_success then
    let was_alerting := check.is_alerting
    let check := { check with
      last_success_time := some check_time
      consecutive_failures := 0
      current_status := ServiceCheckStatus.passing }
    if was_alerting then
      let check := { check with is_alerting := false }
      (check, send_recovery_alert check now)
    else (check, [])
  else
    let check := { check with
      last_failure_time := some check_time
      consecutive_failures := check.consecutive_failures + 1
      current_status := ServiceCheckStatus.failing }
    check_and_send_failure_alert check r.error_message now

/-- `ServiceCheckService.record_result`: always appends one result row
(with the truncated body); when the check id resolves, additionally updates
the check's cached run state and possibly records alerts. -/
def record_result (checkLookup : Option ServiceCheck) (r : ResultInput)
    (check_time now : Nat) :
    ServiceCheckResult × Option ServiceCheck × List ServiceCheckAlert :=
  let row : ServiceCheckResult :=
    { check_id := r.check_id
      agent_hostname := r.agent_hostname
      is_success := r.is_success
      latency_ms := r.latency_ms
      status_code := r.status_code
      response_body := truncateBody r.response_body
      error_message := r.error_message
      check_time := check_time }
  match checkLookup with
  | none => (row, none, [])
  | some check =>
    let su := record_result_state check r check_time now
    (row, some su.1, su.2)

/-- One exposed mutation of a check's stored state: either the Scheduler
records a result for it (`record_result`) or the CRUD layer updates its
definition (`update_check`).  `create_check` supplies the initial state. -/
inductive CheckOp
  | result (r : ResultInput) (check_time now : Nat)
  | update (u : ServiceCheckUpdate)
deriving DecidableEq

/-- Apply one operation to a check's state. -/
def applyOp (c : ServiceCheck) : CheckOp → ServiceCheck
  | CheckOp.result r check_time now => (record_result_state c r check_time now).1
  | CheckOp.update u => update_check c u

/-- Run a sequence of operations from an initial state. -/
def runOps (c : ServiceCheck) (ops : List CheckOp) : ServiceCheck :=
  ops.foldl applyOp c

/-- `true` unless the operation is an `update_check` that raises
`failure_threshold` above its value in state `c`. -/
def opThresholdOk (c : ServiceCheck) : CheckOp → Bool
  | CheckOp.update u =>
    match u.failure_threshold with
    | some v => decide (v ≤ c.failure_threshold)
    | none => true
  | _ => true

/-- `true` when no `update_check` in the sequence raises `failure_threshold`
above its value at the moment of the update. -/
def noThresholdRaise : ServiceCheck → List CheckOp → Bool
  | _, [] => true
  | c, op :: rest => opThresholdOk c op && noThresholdRaise (applyOp c op) rest

/-- A typical check definition: threshold 2, re-alert every 6 hours. -/
def sampleParams : CreateCheckParams :=
  ⟨"web", none, "http", "https://example.org", some 200, none, none, none,
   none, none, 30, 300, 2, 6, none⟩

/-- A failed execution report. -/
def failInput : ResultInput := ⟨1, "agent-1", false, none, none, none, none⟩

/-- A successful execution report. -/
def successInput : ResultInput := ⟨1, "agent-1", true, none, none, none, none⟩

/-- An `update_check` call whose kwargs raise `failure_threshold` to 3. -/
def raiseThresholdUpdate : ServiceCheckUpdate :=
  { ServiceCheckUpdate.empty with failure_threshold := some 3 }

/-! Connection registry (services/websocket_manager.py and the
`agent_websocket` handler in routers/monitoring.py).  The registry is the
`_connections` dict keyed by hostname; transports are identified by
naturals. -/

/-- Registration of a transport: `self._connections[hostname] = conn`
(routers/monitoring.py, and `WebSocketManager.connect`) — a plain dict
assignment that replaces any prior entry for the hostname. -/
def registerConn (reg : List (String × Nat)) (h : String) (t : Nat) :
    List (String × Nat) :=
  if reg.any (fun p => p.1 = h) then
    reg.map (fun p => if p.1 = h then (h, t) else p)
  else reg ++ [(h, t)]

/-- `WebSocketManager.disconnect`, run from every handler's `finally`
block: `del self._connections[hostname]` whenever the hostname is present —
keyed by hostname only, with no check of which transport the departing
handler owned. -/
def disconnectConn (reg : List (String × Nat)) (h : String) :
    List (String × Nat) :=
  reg.filter (fun p => ¬ p.1 = h)

/-! Agent reconnect loop (agent/situation-room-agent.py, `Agent.connect`).
One loop iteration attempts a connection; its outcome is one of the
constructors below.  `stopRequested` models `Agent.stop` (signal handler)
taking effect between attempts. -/

/-- Outcome of one iteration of the `while self.running` connect loop. -/
inductive AttemptOutcome
  | connectFail
  | dropBeforeAuth
  | authReject
  | sessionDrop
  | stopRequested
deriving DecidableEq

/-- Loop state of `Agent.connect`: the `running` flag, whether `connect()`
has returned (`stopped`), and `_reconnect_delay`. -/
structure AgentConnState where
  running : Bool
  stopped : Bool
  reconnect_delay : Nat
deriving DecidableEq

/-- A freshly constructed agent: `running = True`, `_reconnect_delay = 5`. -/
def freshAgent : AgentConnState := ⟨true, false, 5⟩

/-- One iteration of `Agent.connect`.  The second component is the delay
slept before the next attempt (`await asyncio.sleep(self._reconnect_delay)`),
`none` when the loop exits or no sleep happens.
* `connectFail`: `websockets.connect` raised — the delay was not reset, so
  the agent sleeps the current delay and doubles it, capped at 60.
* `dropBeforeAuth` / `sessionDrop`: the transport was established, so line
  926 reset the delay to 5 before the later exception; the agent sleeps 5
  and the delay doubles to 10.  In `sessionDrop` the agent had received
  `auth_success` (a successful authentication) before the failure.
* `authReject`: a JSON auth reply arrived whose type is not
  `auth_success`; the code path is `return` — `connect()` exits with no
  sleep although `running` is still true.
* `stopRequested`: `stop()` set `running = False`; the `while` guard exits
  the loop. -/
def connectStep (s : AgentConnState) (ev : AttemptOutcome) :
    AgentConnState × Option Nat :=
  if s.stopped ∨ s.running = false then (s, none)
  else
    match ev with
    | AttemptOutcome.connectFail =>
      ({ s with reconnect_delay := min (s.reconnect_delay * 2) 60 },
       some s.reconnect_delay)
    | AttemptOutcome.dropBeforeAuth =>
      ({ s with reconnect_delay := min (5 * 2) 60 }, some 5)
    | AttemptOutcome.sessionDrop =>
      ({ s with reconnect_delay := min (5 * 2) 60 }, some 5)
    | AttemptOutcome.authReject =>
      ({ s with stopped := true, reconnect_delay := 5 }, none)
    | AttemptOutcome.stopRequested =>
      ({ s with running := false }, none)

/-- Run the connect loop over a sequence of attempt outcomes, collecting
the slept reconnect delays in order. -/
def runConnect : AgentConnState → List AttemptOutcome → AgentConnState × List Nat
  | s, [] => (s, [])
  | s, ev :: rest =>
    let su := connectStep s ev
    let rest' := runConnect su.1 rest
    (rest'.1, su.2.toList ++ rest'.2)

/-- Round-robin dispatch of the due unpinned checks within one scheduler
tick (main.py `service_check_scheduler_task`, the `agent_key == 'any'`
branch): for each check in order, if the connected list is nonempty the
agent at position `round_robin_index % K` of that list receives the check
and the index advances by one.  `K` is the length of the connected-agent
list; the second pair component is the chosen agent's position in it. -/
def dispatchAny {α : Type} (K : Nat) : Nat → List α → List (α × Nat)
  | _, [] => []
  | i, chk :: rest =>
    if K = 0 then dispatchAny K i rest
    else (chk, i % K) :: dispatchAny K (i + 1) rest

/-! Threat ingestion retention (services/monitoring.py,
`MonitoringService.aggregate_old_events`).  Coordinates are floats in the
source, abstracted to integers — the job only copies and compares them. -/

/-- One raw threat event row (models/monitoring.py `ThreatEvent`), reduced
to the columns the retention job reads. -/
structure ThreatEvent where
  id : Nat
  agent_hostname : String
  source_ip : String
  country_code : Option String
  country_name : Option String
  latitude : Option Int
  longitude : Option Int
  event_time : Nat
deriving DecidableEq

/-- One hourly country aggregate row (models/monitoring.py
`CountryAggregate`). -/
structure CountryAggregate where
  country_code : String
  country_name : String
  hour_bucket : Nat
  event_count : Nat
  unique_ips : Nat
  latitude : Int
  longitude : Int
deriving DecidableEq

/-- A health-check row, reduced to the column the retention job reads. -/
structure HealthCheckRow where
  check_time : Nat
deriving DecidableEq

/-- The three tables touched by the retention job. -/
structure MonitoringDB where
  events : List ThreatEvent
  aggregates : List CountryAggregate
  healthChecks : List HealthCheckRow
deriving DecidableEq

/-- The `strftime` hour truncation: seconds to an hour bucket. -/
def hourBucket (t : Nat) : Nat := t / 3600

/-- The `GROUP BY` key of the aggregation query: country code, country
name, latitude, longitude and hour bucket. -/
structure AggKey where
  country_code : String
  country_name : Option String
  latitude : Option Int
  longitude : Option Int
  hour : Nat
deriving DecidableEq

/-- Group key of an event (only applied to events whose `country_code` is
not null, per the query's `isnot(None)` filter). -/
def aggKey (e : ThreatEvent) : AggKey :=
  ⟨e.country_code.getD "", e.country_name, e.latitude, e.longitude,
   hourBucket e.event_time⟩

/-- The per-group upsert: the existing-aggregate lookup is keyed by
country code and hour bucket only; on a hit, counts are added, otherwise a
new row is inserted with `or`-defaults for name and coordinates. -/
def upsertAggregate (aggs : List CountryAggregate) (k : AggKey) (n u : Nat) :
    List CountryAggregate :=
  if aggs.any (fun a => a.country_code = k.country_code ∧ a.hour_bucket = k.hour) then
    aggs.map (fun a =>
      if a.country_code = k.country_code ∧ a.hour_bucket = k.hour then
        { a with event_count := a.event_count + n, unique_ips := a.unique_ips + u }
      else a)
  else
    aggs ++ [{ country_code := k.country_code,
               country_name := k.country_name.getD "Unknown",
               hour_bucket := k.hour,
               event_count := n,
               unique_ips := u,
               latitude := k.latitude.getD 0,
               longitude := k.longitude.getD 0 }]

/-- `MonitoringService.aggregate_old_events`: select the events older than
the raw cutoff with a non-null country code, group them, upsert each
group's count and distinct-source-ip count into the aggregates, then
delete all events older than the raw cutoff, aggregates older than the
aggregate cutoff and health checks older than the health cutoff.  Returns
the new table state and the number of aggregated events. -/
def aggregate_old_events (raw_cutoff agg_cutoff health_cutoff : Nat)
    (db : MonitoringDB) : MonitoringDB × Nat :=
  let old := db.events.filter
    (fun e => e.event_time < raw_cutoff ∧ e.country_code ≠ none)
  let keys := (old.map aggKey).dedup
  let au := keys.foldl
    (fun (acc : List CountryAggregate × Nat) (k : AggKey) =>
      let group := old.filter (fun e => aggKey e = k)
      (upsertAggregate acc.1 k group.length
        ((group.map (fun e => e.source_ip)).dedup.length),
       acc.2 + group.length))
    (db.aggregates, 0)
  let events' := db.events.filter (fun e => ¬ e.event_time < raw_cutoff)
  let aggs' := au.1.filter (fun a => ¬ a.hour_bucket < agg_cutoff)
  let health' := db.healthChecks.filter
    (fun h => ¬ h.check_time < health_cutoff)
  (⟨events', aggs', health'⟩, au.2)

/-! UFW log parser (services/websocket_manager.py,
`WebSocketManager.parse_ufw_log`).  Lines are lists of characters.  The
timestamp chain — ISO prefix, then syslog prefix with the current year,
then `datetime.utcnow()` — never fails and is wall-clock dependent; its
result enters the model as the `tsVal` argument. -/

/-- Python regex whitespace (the complement of `\S`). -/
def isSpaceChar (c : Char) : Bool :=
  c = ' ' ∨ c = '\t' ∨ c = '\n' ∨ c = '\r' ∨ c = '\x0b' ∨ c = '\x0c'

/-- Does `tag` followed by at least one character satisfying `p` match at
the head of `l`?  This is `re.search(tag + '(cls)+', …)` testing one
position: the literal tag then a non-empty capture. -/
def matchesAt (tag : List Char) (p : Char → Bool) (l : List Char) : Bool :=
  tag.isPrefixOf l &&
    (match l.drop tag.length with
     | d :: _ => p d
     | [] => false)

/-- `re.search(tag + '(cls)+', line)`: scan left to right for the first
position where the tag matches with a non-empty run of class characters
after it; return that maximal run. -/
def findField (tag : List Char) (p : Char → Bool) : List Char → Option (List Char)
  | [] => none
  | c :: rest =>
    if matchesAt tag p (c :: rest) then
      some (((c :: rest).drop tag.length).takeWhile p)
    else findField tag p rest

/-- Digits to a numeral, the `int(...)` conversion of the port captures. -/
def digitsToNat (ds : List Char) : Nat :=
  ds.foldl (fun n c => n * 10 + (c.toNat - '0'.toNat)) 0

/-- A parsed UFW log entry (`UFWLogEntry` dataclass). -/
structure UFWLogEntry where
  timestamp : Nat
  source_ip : List Char
  source_port : Option Nat
  dest_ip : Option (List Char)
  dest_port : Option Nat
  protocol : Option (List Char)
  raw_log : List Char
deriving DecidableEq

/-- `WebSocketManager.parse_ufw_log`: reject lines without the block
marker; extract the five fields with independent regex searches; a line
whose `SRC=` search fails yields no entry; missing optional fields become
`None`. -/
def parse_ufw_log (tsVal : Nat) (line : List Char) : Option UFWLogEntry :=
  if ¬ ("[UFW BLOCK]".toList <:+: line) then none
  else
    match findField "SRC=".toList (fun c => ! isSpaceChar c) line with
    | none => none
    | some src =>
      some { timestamp := tsVal
             source_ip := src
             source_port :=
               (findField "SPT=".toList (fun c => c.isDigit) line).map digitsToNat
             dest_ip := findField "DST=".toList (fun c => ! isSpaceChar c) line
             dest_port :=
               (findField "DPT=".toList (fun c => c.isDigit) line).map digitsToNat
             protocol := findField "PROTO=".toList (fun c => ! isSpaceChar c) line
             raw_log := line }

/-- Suffix of a canonical UFW line from its `DPT=` field on. -/
def ufwRest4 (dpt proto : List Char) : List Char :=
  'D' :: 'P' :: 'T' :: '=' ::(dpt ++ (' ' :: ('P' :: 'R' :: 'O' :: 'T' :: 'O' :: '=' ::proto)))

/-- Suffix of a canonical UFW line from its `SPT=` field on. -/
def ufwRest3 (spt dpt proto : List Char) : List Char :=
  'S' :: 'P' :: 'T' :: '=' ::(spt ++ (' ' :: ufwRest4 dpt proto))

/-- Suffix of a canonical UFW line from its `DST=` field on. -/
def ufwRest2 (dst spt dpt proto : List Char) : List Char :=
  'D' :: 'S' :: 'T' :: '=' ::(dst ++ (' ' :: ufwRest3 spt dpt proto))

/-- Suffix of a canonical UFW line from its `SRC=` field on. -/
def ufwRest1 (src dst spt dpt proto : List Char) : List Char :=
  'S' :: 'R' :: 'C' :: '=' ::(src ++ (' ' :: ufwRest2 dst spt dpt proto))

/-- A canonical UFW block line with given field values: the block marker,
the interface noise and the five `TAG=value` fields in their usual
order. -/
def ufwLine (src dst spt dpt proto : List Char) : List Char :=
  "[UFW BLOCK] IN=eth0 OUT= ".toList ++ ufwRest1 src dst spt dpt proto

/-! JSON values as exchanged on the agent websocket, with Python dict
lookup and truthiness.  ISO-8601 timestamp strings are abstracted to
numeral values (`jnum`); the server's `fromisoformat` parse with its
`utcnow` fallback becomes a match on `jnum`. -/

/-- A JSON value. -/
inductive JVal
  | jnull
  | jbool (b : Bool)
  | jnum (n : Nat)
  | jstr (s : String)
  | jobj (fields : List (String × JVal))

/-- `dict.get(k)`: the first binding of `k`, if any. -/
def jlookup (fields : List (String × JVal)) (k : String) : Option JVal :=
  match fields with
  | [] => none
  | (k', v) :: rest => if k' = k then some v else jlookup rest k

/-- Python truthiness of a JSON value. -/
def JVal.truthy : JVal → Bool
  | JVal.jnull => false
  | JVal.jbool b => b
  | JVal.jnum n => decide (n ≠ 0)
  | JVal.jstr s => decide (s ≠ "")
  | JVal.jobj f => ! f.isEmpty

/-! Agent self-update (agent/situation-room-agent.py,
`AutoUpdater.perform_update`) and the server's `update_result` recording
(routers/monitoring.py).  Artifact contents are strings; the SHA-256
function enters as a parameter `sha`. -/

/-- The parsed version manifest fed to `perform_update`
(`update_info.get(...)` fields). -/
structure UpdateInfo where
  version : Option String
  url : Option String
  sha256 : Option String
  dependencies : List String
deriving DecidableEq

/-- The agent-side files `perform_update` touches: the installed script,
its `.bak` backup, and the temporary download file. -/
structure AgentFS where
  installed : Option String
  backup : Option String
  tmp : Option String
deriving DecidableEq

/-- The `result` dict built by `perform_update`.  `started_at` /
`completed_at` isoformat strings are abstracted to numerals. -/
structure UpdateResult where
  success : Bool
  from_version : String
  to_version : String
  started_at : Nat
  completed_at : Option Nat
  error : Option String
deriving DecidableEq

/-- Python `str.lower()` applied characterwise (digest strings are ASCII
hex). -/
def lowerStr (s : String) : String :=
  String.mk (s.data.map Char.toLower)

/-- `AutoUpdater.perform_update`: a missing url/sha256 aborts before any
download; otherwise the artifact is downloaded to the temp file and its
digest compared (case-insensitively) to the manifest's — on mismatch the
temp file is unlinked and a failure result returned, the installed script
untouched; on a match dependencies are updated (external side effect),
the installed script is backed up and atomically replaced, and a restart
is scheduled (external side effect). -/
def perform_update (sha : String → String) (fs : AgentFS)
    (info : UpdateInfo) (content : String) (current_version : String)
    (started_at completed_at : Nat) : AgentFS × UpdateResult :=
  let to_version := info.version.getD "unknown"
  if (info.url.getD "") = "" ∨ (info.sha256.getD "") = "" then
    (fs, ⟨false, current_version, to_version, started_at, some completed_at,
          some "Missing download URL or SHA256 in update info"⟩)
  else
    let expected := info.sha256.getD ""
    let fs := { fs with tmp := some content }
    let actual := sha content
    if lowerStr actual ≠ lowerStr expected then
      ({ fs with tmp := none },
       ⟨false, current_version, to_version, started_at, some completed_at,
        some ("Checksum mismatch: expected " ++ expected ++ ", got " ++ actual)⟩)
    else
      ({ installed := some content,
         backup := match fs.installed with
           | some prev => some prev
           | none => fs.backup,
         tmp := none },
       ⟨true, current_version, to_version, started_at, some completed_at, none⟩)

/-- The agent's encoding of the result dict (`Agent.run_loop`). -/
def encodeUpdateResult (r : UpdateResult) : JVal :=
  JVal.jobj
    ([("success", JVal.jbool r.success),
      ("from_version", JVal.jstr r.from_version),
      ("to_version", JVal.jstr r.to_version),
      ("started_at", JVal.jnum r.started_at),
      ("error", match r.error with
        | some e => JVal.jstr e
        | none => JVal.jnull)] ++
     (match r.completed_at with
      | some t => [("completed_at", JVal.jnum t)]
      | none => []))

/-- The `update_result` message the agent sends (`Agent.run_loop`, lines
981-984): the result dict is NESTED under a `result` key next to the
envelope's `type`. -/
def update_result_message (r : UpdateResult) : List (String × JVal) :=
  [("type", JVal.jstr "update_result"), ("result", encodeUpdateResult r)]

/-- One row of `AgentUpdateHistory` as the gateway builds it; the
version/error columns keep the raw JSON values the handler extracted. -/
structure AgentUpdateHistory where
  agent_hostname : String
  from_version : JVal
  to_version : JVal
  success : Bool
  error_message : Option JVal
  started_at : Nat
  completed_at : Nat

/-- The gateway's `update_result` branch (routers/monitoring.py lines
798-826): all fields are read from the TOP LEVEL of the message dict with
defaults `False` / `"unknown"`; `error` is only read on failure (a JSON
null reads as absent); unparsable or missing timestamps fall back to
`utcnow` (`now`). -/
def handleUpdateResult (hostname : String) (now : Nat)
    (data : List (String × JVal)) : AgentUpdateHistory :=
  let success := ((jlookup data "success").getD (JVal.jbool false)).truthy
  let from_version := (jlookup data "from_version").getD (JVal.jstr "unknown")
  let to_version := (jlookup data "to_version").getD (JVal.jstr "unknown")
  let error_message :=
    if success then none
    else match jlookup data "error" with
      | some JVal.jnull => none
      | v => v
  let started_at :=
    match jlookup data "started_at" with
    | some (JVal.jnum n) => n
    | _ => now
  let completed_at :=
    match jlookup data "completed_at" with
    | some (JVal.jnum n) => n
    | _ => now
  ⟨hostname, from_version, to_version, success, error_message,
   started_at, completed_at⟩

/-! Gateway message loop (routers/monitoring.py, `agent_websocket`).  An
authenticated connection reads JSON messages and branches on their
`type`. -/

/-- A batch item of a `health_check` message. -/
structure HealthCheckInput where
  name : String
  ctype : String
  healthy : Bool
  latency_ms : Option Nat
  message : Option String
  details : Option String
deriving DecidableEq

/-- An inbound agent message after JSON decoding, by its `type` field.
`other` covers any unrecognized type string. -/
inductive InboundMsg
  | ufw_logs (logs : List (List Char))
  | health_check (checks : List HealthCheckInput)
  | ping
  | update_result (data : List (String × JVal))
  | service_check_result (results : List ResultInput)
  | other (ty : String)

/-- A server-to-agent reply sent from inside the message loop. -/
inductive OutMsg
  | pong
deriving DecidableEq

/-- Replace-or-add on an association list — a Python dict assignment. -/
def dictSet (l : List (String × Nat)) (k : String) (v : Nat) :
    List (String × Nat) :=
  if l.any (fun p => p.1 = k) then
    l.map (fun p => if p.1 = k then (k, v) else p)
  else l ++ [(k, v)]

/-- The database tables and connection bookkeeping the message loop
touches.  `serviceResults` and `checksTable` are the Scheduler's tables
written by `ServiceCheckService.record_result`. -/
structure GatewayState where
  threatEvents : List (String × UFWLogEntry)
  healthRows : List (String × HealthCheckInput × Nat)
  updateHistory : List AgentUpdateHistory
  serviceResults : List ServiceCheckResult
  checksTable : List ServiceCheck
  agentLastSeen : List (String × Nat)
  connLastMessage : List (String × Nat)

/-- One iteration of the `agent_websocket` message loop for an
authenticated agent.  Branches exist for `ufw_logs` (parse each line,
skipping failures, and record the rest), `health_check`, `ping` and
`update_result`; any other type — `service_check_result` included — falls
through with no effect.  Every message refreshes the connection's
`last_message`.  GeoIP enrichment and notification delivery are external
side effects, not modelled. -/
def handleAgentMessage (hostname : String) (now : Nat) (msg : InboundMsg)
    (st : GatewayState) : GatewayState × List OutMsg :=
  let su : GatewayState × List OutMsg :=
    match msg with
    | InboundMsg.ufw_logs logs =>
      let parsed := logs.foldl
        (fun acc line =>
          match parse_ufw_log now line with
          | some entry => acc ++ [(hostname, entry)]
          | none => acc) []
      ({ st with threatEvents := st.threatEvents ++ parsed,
                 agentLastSeen := dictSet st.agentLastSeen hostname now }, [])
    | InboundMsg.health_check checks =>
      ({ st with
          healthRows := st.healthRows ++ checks.map (fun c => (hostname, c, now)),
          agentLastSeen := dictSet st.agentLastSeen hostname now }, [])
    | InboundMsg.ping =>
      ({ st with agentLastSeen := dictSet st.agentLastSeen hostname now },
       [OutMsg.pong])
    | InboundMsg.update_result data =>
      ({ st with
          updateHistory := st.updateHistory ++ [handleUpdateResult hostname now data],
          agentLastSeen := dictSet st.agentLastSeen hostname now }, [])
    | _ => (st, [])
  ({ su.1 with connLastMessage := dictSet su.1.connLastMessage hostname now },
   su.2)

/-- First invariant of the check run state: a failing status implies at
least one consecutive failure. -/
def CheckInv1 (c : ServiceCheck) : Prop :=
  c.current_status = ServiceCheckStatus.failing → 1 ≤ c.consecutive_failures

/-- Second invariant of the check run state: the alerting flag implies the
failure count has reached the threshold. -/
def CheckInv2 (c : ServiceCheck) : Prop :=
  c.is_alerting = true → c.failure_threshold ≤ c.consecutive_failures

lemma caf_consecutive (c : ServiceCheck) (e : Option String) (now : Nat) :
    (check_and_send_failure_alert c e now).1.consecutive_failures =
      c.consecutive_failures := by
  unfold check_and_send_failure_alert
  by_cases h1 : c.consecutive_failures < c.failure_threshold
  · simp [h1]
  · by_cases h2 : c.is_alerting
    · cases hl : c.last_alert_time <;> simp [h1, h2, hl] <;> split <;> simp
    · simp [h1, h2]

lemma caf_status (c : ServiceCheck) (e : Option String) (now : Nat) :
    (check_and_send_failure_alert c e now).1.current_status =
      c.current_status := by
  unfold check_and_send_failure_alert
  by_cases h1 : c.consecutive_failures < c.failure_threshold
  · simp [h1]
  · by_cases h2 : c.is_alerting
    · cases hl : c.last_alert_time <;> simp [h1, h2, hl] <;> split <;> simp
    · simp [h1, h2]

lemma caf_threshold (c : ServiceCheck) (e : Option String) (now : Nat) :
    (check_and_send_failure_alert c e now).1.failure_threshold =
      c.failure_threshold := by
  unfold check_and_send_failure_alert
  by_cases h1 : c.consecutive_failures < c.failure_threshold
  · simp [h1]
  · by_cases h2 : c.is_alerting
    · cases hl : c.last_alert_time <;> simp [h1, h2, hl] <;> split <;> simp
    · simp [h1, h2]

/-- In `_check_and_send_failure_alert` the alerting flag can only be raised
once the failure count has reached the threshold; otherwise it is left as
it was. -/
lemma caf_alerting (c : ServiceCheck) (e : Option String) (now : Nat) :
    (check_and_send_failure_alert c e now).1.is_alerting = true →
      c.is_alerting = true ∨ c.failure_threshold ≤ c.consecutive_failures := by
  unfold check_and_send_failure_alert
  by_cases h1 : c.consecutive_failures < c.failure_threshold
  · simp only [if_pos h1]
    exact fun h => Or.inl h
  · by_cases h2 : c.is_alerting
    · cases hl : c.last_alert_time <;> simp [h1, h2, hl] <;> split <;> simp [h2]
    · simp [h1, h2, Nat.le_of_not_lt h1]

lemma inv1_applyOp (c : ServiceCheck) (op : CheckOp) (h : CheckInv1 c) :
    CheckInv1 (applyOp c op) := by
  cases op with
  | update u =>
    intro hst
    simp only [applyOp, update_check] at hst ⊢
    exact h hst
  | result r ct now =>
    intro hst
    simp only [applyOp, record_result_state] at hst ⊢
    by_cases hs : r.is_success
    · simp [hs] at hst ⊢
      split at hst <;> simp_all
    · simp only [hs, if_neg, Bool.false_eq_true, if_false] at hst ⊢
      rw [caf_consecutive]
      simp

lemma inv2_applyOp (c : ServiceCheck) (op : CheckOp) (h : CheckInv2 c)
    (hop : opThresholdOk c op = true) :
    CheckInv2 (applyOp c op) := by
  cases op with
  | update u =>
    intro hal
    simp only [applyOp, update_check] at hal ⊢
    cases hv : u.failure_threshold with
    | none => simpa [hv] using h hal
    | some v =>
      simp only [opThresholdOk, hv, decide_eq_true_eq] at hop
      have := h hal
      simp only [hv, Option.getD_some]
      omega
  | result r ct now =>
    intro hal
    simp only [applyOp, record_result_state] at hal ⊢
    by_cases hs : r.is_success
    · simp [hs] at hal ⊢
      split at hal <;> simp_all
    · simp only [hs, Bool.false_eq_true, if_false] at hal ⊢
      rw [caf_consecutive, caf_threshold]
      rcases caf_alerting _ _ _ hal with hprev | hge
      · simp only at hprev
        have := h hprev
        simp
        omega
      · simpa using hge

lemma inv1_runOps (c : ServiceCheck) (ops : List CheckOp) (h : CheckInv1 c) :
    CheckInv1 (runOps c ops) := by
  induction ops generalizing c with
  | nil => exact h
  | cons op rest ih =>
    exact ih (applyOp c op) (inv1_applyOp c op h)

lemma inv2_runOps (c : ServiceCheck) (ops : List CheckOp) (h : CheckInv2 c)
    (hok : noThresholdRaise c ops = true) :
    CheckInv2 (runOps c ops) := by
  induction ops generalizing c with
  | nil => exact h
  | cons op rest ih =>
    simp only [noThresholdRaise, Bool.and_eq_true] at hok
    exact ih (applyOp c op) (inv2_applyOp c op h hok.1) hok.2

lemma caf_below (c : ServiceCheck) (e : Option String) (now : Nat)
    (hlt : c.consecutive_failures < c.failure_threshold) :
    check_and_send_failure_alert c e now = (c, []) := by
  simp [check_and_send_failure_alert, hlt]

lemma caf_cross (c : ServiceCheck) (e : Option String) (now : Nat)
    (hge : ¬ c.consecutive_failures < c.failure_threshold)
    (hal : c.is_alerting = false) :
    (check_and_send_failure_alert c e now).1 =
      { c with is_alerting := true, last_alert_time := some now,
               alert_count := c.alert_count + 1 } ∧
    (check_and_send_failure_alert c e now).2.length = 1 ∧
    ∀ a ∈ (check_and_send_failure_alert c e now).2, a.alert_type = "failure" := by
  simp [check_and_send_failure_alert, hge, hal]

lemma caf_suppressed (c : ServiceCheck) (e : Option String) (now lat : Nat)
    (hge : ¬ c.consecutive_failures < c.failure_threshold)
    (hal : c.is_alerting = true)
    (hlat : c.last_alert_time = some lat)
    (hwin : ¬ 3600 * c.alert_interval_hours ≤ now - lat) :
    check_and_send_failure_alert c e now = (c, []) := by
  simp [check_and_send_failure_alert, hge, hal, hlat, hwin]

/-- On a failed result, `record_result` bumps the failure count, marks the
status failing and defers to the alert policy. -/
lemma rrs_fail (c : ServiceCheck) (r : ResultInput) (ct now : Nat)
    (hs : r.is_success = false) :
    record_result_state c r ct now =
      check_and_send_failure_alert
        { c with last_check_time := some ct, last_latency_ms := r.latency_ms,
                 last_failure_time := some ct,
                 consecutive_failures := c.consecutive_failures + 1,
                 current_status := ServiceCheckStatus.failing }
        r.error_message now := by
  simp [record_result_state, hs]

/-- On a successful result while alerting, `record_result` clears the flag
and emits the recovery alert. -/
lemma rrs_success_alerting (c : ServiceCheck) (r : ResultInput) (ct now : Nat)
    (hs : r.is_success = true) (hal : c.is_alerting = true) :
    record_result_state c r ct now =
      ({ c with last_check_time := some ct, last_latency_ms := r.latency_ms,
                last_success_time := some ct, consecutive_failures := 0,
                current_status := ServiceCheckStatus.passing,
                is_alerting := false },
       send_recovery_alert
         { c with last_check_time := some ct, last_latency_ms := r.latency_ms,
                  last_success_time := some ct, consecutive_failures := 0,
                  current_status := ServiceCheckStatus.passing,
                  is_alerting := false } now) := by
  simp [record_result_state, hs, hal]

/-- One failed result strictly below the threshold: no alert, flag and
alert bookkeeping untouched, failure count bumped. -/
lemma step_fail_noalert (c : ServiceCheck) (r : ResultInput) (ct now : Nat)
    (hs : r.is_success = false)
    (hlt : c.consecutive_failures + 1 < c.failure_threshold) :
    (record_result_state c r ct now).2 = [] ∧
    (record_result_state c r ct now).1.is_alerting = c.is_alerting ∧
    (record_result_state c r ct now).1.consecutive_failures =
      c.consecutive_failures + 1 ∧
    (record_result_state c r ct now).1.failure_threshold =
      c.failure_threshold ∧
    (record_result_state c r ct now).1.alert_interval_hours =
      c.alert_interval_hours ∧
    (record_result_state c r ct now).1.last_alert_time =
      c.last_alert_time := by
  rw [rrs_fail c r ct now hs, caf_below _ _ _ (by simpa using hlt)]
  simp

/-- One failed result that reaches the threshold while not yet alerting:
the flag is raised and exactly one failure alert is recorded. -/
lemma step_fail_cross (c : ServiceCheck) (r : ResultInput) (ct now : Nat)
    (hs : r.is_success = false)
    (hge : c.failure_threshold ≤ c.consecutive_failures + 1)
    (hal : c.is_alerting = false) :
    (record_result_state c r ct now).1.is_alerting = true ∧
    (record_result_state c r ct now).2.length = 1 ∧
    (∀ a ∈ (record_result_state c r ct now).2, a.alert_type = "failure") ∧
    (record_result_state c r ct now).1.consecutive_failures =
      c.consecutive_failures + 1 ∧
    (record_result_state c r ct now).1.failure_threshold =
      c.failure_threshold ∧
    (record_result_state c r ct now).1.alert_interval_hours =
      c.alert_interval_hours ∧
    (record_result_state c r ct now).1.last_alert_time = some now := by
  rw [rrs_fail c r ct now hs]
  obtain ⟨fa, fb, fc⟩ := caf_cross
    { c with last_check_time := some ct, last_latency_ms := r.latency_ms,
             last_failure_time := some ct,
             consecutive_failures := c.consecutive_failures + 1,
             current_status := ServiceCheckStatus.failing }
    r.error_message now (by simpa using Nat.not_lt.mpr hge) (by simpa using hal)
  rw [fa]
  exact ⟨rfl, fb, fc, rfl, rfl, rfl, rfl⟩

/-- One failed result while alerting, within the re-alert window: no new
alert, state unchanged apart from the failure bookkeeping. -/
lemma step_fail_suppressed (c : ServiceCheck) (r : ResultInput)
    (ct now lat : Nat) (hs : r.is_success = false)
    (hge : c.failure_threshold ≤ c.consecutive_failures + 1)
    (hal : c.is_alerting = true)
    (hlat : c.last_alert_time = some lat)
    (hwin : ¬ 3600 * c.alert_interval_hours ≤ now - lat) :
    (record_result_state c r ct now).2 = [] ∧
    (record_result_state c r ct now).1.is_alerting = true := by
  rw [rrs_fail c r ct now hs,
    caf_suppressed _ _ _ lat (by simpa using Nat.not_lt.mpr hge)
      (by simpa using hal) (by simpa using hlat) (by simpa using hwin)]
  simpa using hal

/-- One successful result while alerting: the flag is cleared and exactly
one recovery alert is recorded. -/
lemma step_success_recover (c : ServiceCheck) (r : ResultInput) (ct now : Nat)
    (hs : r.is_success = true) (hal : c.is_alerting = true) :
    (record_result_state c r ct now).1.is_alerting = false ∧
    (record_result_state c r ct now).2.length = 1 ∧
    ∀ a ∈ (record_result_state c r ct now).2, a.alert_type = "recovery" := by
  rw [rrs_success_alerting c r ct now hs hal]
  refine ⟨rfl, rfl, ?_⟩
  intro a ha
  simp [send_recovery_alert] at ha
  rw [ha]

/-- C3: with `failure_threshold = 2` from a fresh non-alerting state, the
first failure records no alert, the second sets `is_alerting` and records
exactly one failure alert, a third failure within `alert_interval_hours` of
that alert records none, and a subsequent success clears `is_alerting` and
records exactly one recovery alert. -/
theorem failure_alert_lifecycle
    (c : ServiceCheck) (r1 r2 r3 r4 : ResultInput)
    (ct1 now1 ct2 now2 ct3 now3 ct4 now4 : Nat)
    (hth : c.failure_threshold = 2)
    (hal : c.is_alerting = false)
    (hcf : c.consecutive_failures = 0)
    (h1 : r1.is_success = false) (h2 : r2.is_success = false)
    (h3 : r3.is_success = false) (h4 : r4.is_success = true)
    (hwin : now3 - now2 < 3600 * c.alert_interval_hours) :
    (record_result_state c r1 ct1 now1).2 = [] ∧
    (record_result_state c r1 ct1 now1).1.is_alerting = false ∧
    ((record_result_state (record_result_state c r1 ct1 now1).1
        r2 ct2 now2).1.is_alerting = true ∧
     (record_result_state (record_result_state c r1 ct1 now1).1
        r2 ct2 now2).2.length = 1 ∧
     ∀ a ∈ (record_result_state (record_result_state c r1 ct1 now1).1
        r2 ct2 now2).2, a.alert_type = "failure") ∧
    ((record_result_state (record_result_state (record_result_state c
        r1 ct1 now1).1 r2 ct2 now2).1 r3 ct3 now3).2 = [] ∧
     (record_result_state (record_result_state (record_result_state c
        r1 ct1 now1).1 r2 ct2 now2).1 r3 ct3 now3).1.is_alerting = true) ∧
    ((record_result_state (record_result_state (record_result_state
        (record_result_state c r1 ct1 now1).1 r2 ct2 now2).1
        r3 ct3 now3).1 r4 ct4 now4).1.is_alerting = false ∧
     (record_result_state (record_result_state (record_result_state
        (record_result_state c r1 ct1 now1).1 r2 ct2 now2).1
        r3 ct3 now3).1 r4 ct4 now4).2.length = 1 ∧
     ∀ a ∈ (record_result_state (record_result_state (record_result_state
        (record_result_state c r1 ct1 now1).1 r2 ct2 now2).1
        r3 ct3 now3).1 r4 ct4 now4).2, a.alert_type = "recovery") := by
  obtain ⟨g1a, g1b, g1c, g1d, g1e, g1f⟩ :=
    step_fail_noalert c r1 ct1 now1 h1 (by omega)
  obtain ⟨g2a, g2b, g2c, g2d, g2e, g2f, g2g⟩ :=
    step_fail_cross (record_result_state c r1 ct1 now1).1 r2 ct2 now2 h2
      (by rw [g1d, g1c]; omega) (by rw [g1b, hal])
  obtain ⟨g3a, g3b⟩ :=
    step_fail_suppressed
      (record_result_state (record_result_state c r1 ct1 now1).1
        r2 ct2 now2).1 r3 ct3 now3 now2 h3
      (by rw [g2e, g1d, g2d, g1c]; omega) g2a g2g
      (by rw [g2f, g1e]; omega)
  obtain ⟨g4a, g4b, g4c⟩ :=
    step_success_recover
      (record_result_state (record_result_state (record_result_state c
        r1 ct1 now1).1 r2 ct2 now2).1 r3 ct3 now3).1 r4 ct4 now4 h4 g3b
  exact ⟨g1a, by rw [g1b, hal], ⟨g2a, g2b, g2c⟩, ⟨g3a, g3b⟩,
    ⟨g4a, g4b, g4c⟩⟩

/-- Witness for C3 at a concrete check and concrete failure/success
reports. -/
theorem failure_alert_lifecycle_witness :
    (record_result_state (record_result_state (create_check 1 sampleParams)
      failInput 10 10).1 failInput 20 20).1.is_alerting = true ∧
    (record_result_state (record_result_state (record_result_state
      (create_check 1 sampleParams) failInput 10 10).1 failInput 20 20).1
      failInput 30 30).2 = [] :=
  have h := failure_alert_lifecycle (create_check 1 sampleParams)
    failInput failInput failInput successInput
    10 10 20 20 30 30 40 40 rfl rfl rfl rfl rfl rfl rfl (by decide)
  ⟨h.2.2.1.1, h.2.2.2.1.1⟩

/-- C8 (amended): in every state reachable from `create_check` by
`record_result` and `update_check`, a failing status implies at least one
consecutive failure; and as long as no `update_check` raises
`failure_threshold` above its current value, the alerting flag implies the
failure count has reached the threshold. -/
theorem check_state_invariants (id : Nat) (p : CreateCheckParams)
    (ops : List CheckOp) :
    CheckInv1 (runOps (create_check id p) ops) ∧
    (noThresholdRaise (create_check id p) ops = true →
      CheckInv2 (runOps (create_check id p) ops)) := by
  constructor
  · apply inv1_runOps
    intro h
    simp [create_check] at h
  · intro hok
    apply inv2_runOps _ _ _ hok
    intro h
    simp [create_check] at h

/-- Witness: the invariants instantiated on a concrete one-failure run. -/
theorem check_state_invariants_witness :
    CheckInv1 (runOps (create_check 1 sampleParams) [CheckOp.result failInput 10 10]) ∧
    CheckInv2 (runOps (create_check 1 sampleParams) [CheckOp.result failInput 10 10]) :=
  ⟨(check_state_invariants 1 sampleParams [CheckOp.result failInput 10 10]).1,
   (check_state_invariants 1 sampleParams [CheckOp.result failInput 10 10]).2
     (by decide)⟩

/-- C8 counterexample: two failures reach the threshold 2 and set the
alerting flag; an `update_check` then raises the threshold to 3, leaving a
reachable state with `is_alerting = true` but `consecutive_failures = 2 <
3 = failure_threshold`, refuting the invariant as claimed. -/
theorem check_state_invariants_cex :
    (runOps (create_check 1 sampleParams)
      [CheckOp.result failInput 10 10, CheckOp.result failInput 20 20,
       CheckOp.update raiseThresholdUpdate]).is_alerting = true ∧
    (runOps (create_check 1 sampleParams)
      [CheckOp.result failInput 10 10, CheckOp.result failInput 20 20,
       CheckOp.update raiseThresholdUpdate]).consecutive_failures = 2 ∧
    (runOps (create_check 1 sampleParams)
      [CheckOp.result failInput 10 10, CheckOp.result failInput 20 20,
       CheckOp.update raiseThresholdUpdate]).failure_threshold = 3 ∧
    ¬ ((runOps (create_check 1 sampleParams)
      [CheckOp.result failInput 10 10, CheckOp.result failInput 20 20,
       CheckOp.update raiseThresholdUpdate]).failure_threshold ≤
      (runOps (create_check 1 sampleParams)
      [CheckOp.result failInput 10 10, CheckOp.result failInput 20 20,
       CheckOp.update raiseThresholdUpdate]).consecutive_failures) := by
  decide

/-- C10: every result row persisted by `record_result` stores at most 1024
characters of response body — the first 1024 characters of a non-empty
body, `None` for an empty or absent one — and every other field exactly as
given. -/
theorem response_body_truncation (lookup : Option ServiceCheck)
    (r : ResultInput) (ct now : Nat) :
    (∀ s, (record_result lookup r ct now).1.response_body = some s →
      s.length ≤ 1024) ∧
    (∀ s, r.response_body = some s → s ≠ "" →
      (record_result lookup r ct now).1.response_body = some (s.take 1024)) ∧
    ((r.response_body = none ∨ r.response_body = some "") →
      (record_result lookup r ct now).1.response_body = none) ∧
    (record_result lookup r ct now).1.check_id = r.check_id ∧
    (record_result lookup r ct now).1.agent_hostname = r.agent_hostname ∧
    (record_result lookup r ct now).1.is_success = r.is_success ∧
    (record_result lookup r ct now).1.latency_ms = r.latency_ms ∧
    (record_result lookup r ct now).1.status_code = r.status_code ∧
    (record_result lookup r ct now).1.error_message = r.error_message ∧
    (record_result lookup r ct now).1.check_time = ct := by
  have hrow : (record_result lookup r ct now).1 =
      { check_id := r.check_id
        agent_hostname := r.agent_hostname
        is_success := r.is_success
        latency_ms := r.latency_ms
        status_code := r.status_code
        response_body := truncateBody r.response_body
        error_message := r.error_message
        check_time := ct } := by
    cases lookup <;> rfl
  rw [hrow]
  refine ⟨?_, ?_, ?_, rfl, rfl, rfl, rfl, rfl, rfl, rfl⟩
  · intro s hs
    simp only [truncateBody] at hs
    cases hb : r.response_body with
    | none => rw [hb] at hs; cases hs
    | some b =>
      rw [hb] at hs
      by_cases hne : b = ""
      · simp [hne] at hs
      · simp only [hne, ne_eq, not_false_iff, if_true, Option.some.injEq] at hs
        subst hs
        rw [String.take_eq]
        calc (String.mk (b.data.take 1024)).length = (b.data.take 1024).length := rfl
          _ ≤ 1024 := by simp [List.length_take]
  · intro s hs hne
    simp [truncateBody, hs, hne]
  · intro hcase
    rcases hcase with hb | hb <;> simp [truncateBody, hb]

/-- Witness for C10: a concrete three-character body is stored verbatim
(its own first 1024 characters). -/
theorem response_body_truncation_witness :
    (record_result none ⟨1, "agent-1", true, none, none, some "abc", none⟩
      5 5).1.response_body = some (String.take "abc" 1024) :=
  (response_body_truncation none ⟨1, "agent-1", true, none, none, some "abc", none⟩
    5 5).2.1 "abc" rfl (by decide)

lemma min_double_pow (d k : Nat) :
    min (min (d * 2) 60 * 2 ^ k) 60 = min (d * 2 ^ (k + 1)) 60 := by
  rcases Nat.le_total (d * 2) 60 with h | h
  · rw [Nat.min_eq_left h, pow_succ]
    ring_nf
  · have hp : 0 < 2 ^ k := Nat.pos_pow_of_pos k (by omega)
    have h1 : (60 : Nat) ≤ 60 * 2 ^ k := Nat.le_mul_of_pos_right 60 hp
    have h2 : (60 : Nat) ≤ d * 2 ^ (k + 1) := by
      calc (60 : Nat) ≤ d * 2 := h
        _ ≤ d * 2 * 2 ^ k := Nat.le_mul_of_pos_right _ hp
        _ = d * 2 ^ (k + 1) := by rw [pow_succ]; ring
    rw [Nat.min_eq_right h, Nat.min_eq_right h1, Nat.min_eq_right h2]

lemma backoff_formula (n : Nat) : ∀ d : Nat, d ≤ 60 →
    (runConnect ⟨true, false, d⟩
      (List.replicate n AttemptOutcome.connectFail)).2 =
      (List.range n).map (fun k => min (d * 2 ^ k) 60) := by
  induction n with
  | zero => intro d _; rfl
  | succ n ih =>
    intro d hd
    rw [List.replicate_succ, List.range_succ_eq_map, List.map_cons]
    have hstep : runConnect ⟨true, false, d⟩
        (AttemptOutcome.connectFail :: List.replicate n AttemptOutcome.connectFail) =
        ((runConnect ⟨true, false, min (d * 2) 60⟩
           (List.replicate n AttemptOutcome.connectFail)).1,
         d :: (runConnect ⟨true, false, min (d * 2) 60⟩
           (List.replicate n AttemptOutcome.connectFail)).2) := by
      simp [runConnect, connectStep]
    rw [hstep]
    simp only [List.map_map]
    rw [ih (min (d * 2) 60) (Nat.min_le_right _ _)]
    have hhead : min (d * 2 ^ 0) 60 = d := by
      simpa using Nat.min_eq_left hd
    rw [hhead]
    refine congrArg (d :: ·) (List.map_congr_left ?_)
    intro k _
    simpa using min_double_pow d k

/-- C5 (amended): the reconnect delays for consecutive connection failures
from a fresh agent follow `min (5 * 2 ^ k) 60`, i.e. 5, 10, 20, 40, 60,
60, …; any failure raising an exception in the Connected or Authenticating
state sleeps the current delay and leaves the loop running (an
authentication that succeeded beforehand having reset the next delay to
5); but an auth reply whose type is not `auth_success` makes `connect()`
return, stopping the agent without a stop request. -/
theorem reconnect_backoff (n : Nat) (s : AgentConnState)
    (hrun : s.running = true) (hstop : s.stopped = false) :
    (runConnect freshAgent (List.replicate n AttemptOutcome.connectFail)).2 =
      (List.range n).map (fun k => min (5 * 2 ^ k) 60) ∧
    (runConnect freshAgent (List.replicate 7 AttemptOutcome.connectFail)).2 =
      [5, 10, 20, 40, 60, 60, 60] ∧
    (connectStep s AttemptOutcome.connectFail).2 = some s.reconnect_delay ∧
    (connectStep s AttemptOutcome.connectFail).1.stopped = false ∧
    (connectStep s AttemptOutcome.dropBeforeAuth).2 = some 5 ∧
    (connectStep s AttemptOutcome.dropBeforeAuth).1.stopped = false ∧
    (connectStep s AttemptOutcome.sessionDrop).2 = some 5 ∧
    (connectStep s AttemptOutcome.sessionDrop).1.stopped = false ∧
    (connectStep s AttemptOutcome.sessionDrop).1.running = true := by
  refine ⟨backoff_formula n 5 (by omega), by decide, ?_, ?_, ?_, ?_, ?_, ?_, ?_⟩ <;>
    simp [connectStep, hrun, hstop]

/-- Witness for C5 at the first seven connection failures of a fresh
agent. -/
theorem reconnect_backoff_witness :
    (runConnect freshAgent (List.replicate 7 AttemptOutcome.connectFail)).2 =
      [5, 10, 20, 40, 60, 60, 60] :=
  (reconnect_backoff 7 freshAgent rfl rfl).2.1

/-- C5 counterexample: a fresh agent that receives an auth reply whose type
is not `auth_success` exits `connect()` — it stops with no retry sleep even
though `running` is still true (it was never told to stop), refuting the
claim that any failure in the Authenticating state waits and retries. -/
theorem reconnect_backoff_cex :
    (runConnect freshAgent [AttemptOutcome.authReject]).1.stopped = true ∧
    (runConnect freshAgent [AttemptOutcome.authReject]).1.running = true ∧
    (runConnect freshAgent [AttemptOutcome.authReject]).2 = [] := by
  decide

/-- C4: evaluation of the registry at the reconnect-then-cleanup sequence.
After a reconnect (`register h t1` then `register h t2`) the registry holds
exactly the newer transport; but when the old handler's `finally` cleanup
then runs `disconnect h`, the entry — keyed by hostname only — is deleted,
leaving zero registered transports for the hostname instead of the claimed
one (the newer). -/
theorem registry_reconnect_cleanup (h : String) (t1 t2 : Nat) :
    registerConn (registerConn [] h t1) h t2 = [(h, t2)] ∧
    disconnectConn (registerConn (registerConn [] h t1) h t2) h = [] := by
  simp [registerConn, disconnectConn]

lemma count_map_mod_range (b K a : Nat) (hK : 0 < K) (ha : a < K) :
    ((List.range K).map (fun j => (b + j) % K)).count a = 1 := by
  have hinj : ∀ x ∈ List.range K, ∀ y ∈ List.range K,
      (b + x) % K = (b + y) % K → x = y := by
    intro x hx y hy hxy
    have hmod := Nat.ModEq.add_left_cancel' b hxy
    rw [List.mem_range] at hx hy
    rwa [Nat.ModEq, Nat.mod_eq_of_lt hx, Nat.mod_eq_of_lt hy] at hmod
  have hnd := List.Nodup.map_on hinj (List.nodup_range K)
  have hsub : (List.range K).map (fun j => (b + j) % K) ⊆ List.range K := by
    intro x hx
    rw [List.mem_map] at hx
    obtain ⟨j, _, rfl⟩ := hx
    exact List.mem_range.mpr (Nat.mod_lt _ hK)
  have hperm := (List.subperm_of_subset hnd hsub).perm_of_length_le (by simp)
  rw [hperm.count_eq a]
  exact List.count_eq_one_of_mem (List.nodup_range K) (List.mem_range.mpr ha)

lemma count_mod_range_add (i0 K M a : Nat) (hK : 0 < K) (ha : a < K) :
    ((List.range (M + K)).map (fun j => (i0 + j) % K)).count a =
      ((List.range M).map (fun j => (i0 + j) % K)).count a + 1 := by
  rw [List.range_add, List.map_append, List.count_append, List.map_map]
  congr 1
  have heq : ((List.range K).map ((fun j => (i0 + j) % K) ∘ (M + ·))).count a
      = ((List.range K).map (fun j => (i0 + M + j) % K)).count a := by
    congr 1
    apply List.map_congr_left
    intro j _
    simp only [Function.comp]
    rw [Nat.add_assoc]
  rw [heq, count_map_mod_range (i0 + M) K a hK ha]

lemma count_mod_range_bounds (K a : Nat) (hK : 0 < K) (ha : a < K) :
    ∀ M i0, M / K ≤ ((List.range M).map (fun j => (i0 + j) % K)).count a ∧
      ((List.range M).map (fun j => (i0 + j) % K)).count a ≤
        (M + K - 1) / K := by
  intro M
  induction M using Nat.strong_induction_on with
  | _ M ih =>
    intro i0
    by_cases hM : M < K
    · have hle1 : ((List.range M).map (fun j => (i0 + j) % K)).count a ≤ 1 := by
        have hsl : List.Sublist ((List.range M).map (fun j => (i0 + j) % K))
            ((List.range K).map (fun j => (i0 + j) % K)) :=
          List.Sublist.map _ (List.range_sublist.mpr (Nat.le_of_lt hM))
        calc ((List.range M).map (fun j => (i0 + j) % K)).count a
            ≤ ((List.range K).map (fun j => (i0 + j) % K)).count a :=
              hsl.count_le a
          _ = 1 := count_map_mod_range i0 K a hK ha
      refine ⟨by rw [Nat.div_eq_of_lt hM]; exact Nat.zero_le _, ?_⟩
      rcases Nat.eq_zero_or_pos M with h0 | h0
      · subst h0; simp
      · have h1 : 1 ≤ (M + K - 1) / K := (Nat.one_le_div_iff hK).mpr (by omega)
        omega
    · push_neg at hM
      obtain ⟨M', rfl⟩ : ∃ M', M = M' + K := ⟨M - K, by omega⟩
      obtain ⟨ihl, ihr⟩ := ih M' (by omega) i0
      rw [count_mod_range_add i0 K M' a hK ha]
      constructor
      · rw [Nat.add_div_right _ hK]; omega
      · have heq : (M' + K + K - 1) / K = (M' + K - 1) / K + 1 := by
          rw [show M' + K + K - 1 = (M' + K - 1) + K by omega,
            Nat.add_div_right _ hK]
        rw [heq]; omega

lemma dispatchAny_snd {α : Type} (K : Nat) (hK : K ≠ 0) :
    ∀ (i : Nat) (checks : List α),
    (dispatchAny K i checks).map Prod.snd =
      (List.range checks.length).map (fun j => (i + j) % K) := by
  intro i checks
  induction checks generalizing i with
  | nil => rfl
  | cons c rest ih =>
    simp only [dispatchAny, hK, if_false, List.map_cons, List.length_cons]
    rw [List.range_succ_eq_map, List.map_cons, List.map_map, ih (i + 1)]
    refine congrArg₂ List.cons (by simp) ?_
    apply List.map_congr_left
    intro j _
    simp only [Function.comp]
    congr 1
    omega

/-- C9: within one tick, dispatching the due unpinned checks across `K`
connected agents by the rotating round-robin index gives every agent
position either `⌊M/K⌋` or `⌈M/K⌉` of the `M` checks, for every `K ≥ 1`
and every starting index. -/
theorem round_robin_balanced {α : Type} (K i0 : Nat) (checks : List α)
    (a : Nat) (hK : 0 < K) (ha : a < K) :
    ((dispatchAny K i0 checks).map Prod.snd).count a = checks.length / K ∨
    ((dispatchAny K i0 checks).map Prod.snd).count a =
      (checks.length + K - 1) / K := by
  rw [dispatchAny_snd K (by omega) i0 checks]
  obtain ⟨hl, hr⟩ := count_mod_range_bounds K a hK ha checks.length i0
  have hceil : (checks.length + K - 1) / K ≤ checks.length / K + 1 := by
    calc (checks.length + K - 1) / K
        ≤ (checks.length + K) / K := Nat.div_le_div_right (by omega)
      _ = checks.length / K + 1 := Nat.add_div_right _ hK
  omega

/-- Witness for C9: three checks over two agents starting at index 3. -/
theorem round_robin_balanced_witness :
    ((dispatchAny 2 3 ["c1", "c2", "c3"]).map Prod.snd).count 0 =
      (["c1", "c2", "c3"] : List String).length / 2 ∨
    ((dispatchAny 2 3 ["c1", "c2", "c3"]).map Prod.snd).count 0 =
      ((["c1", "c2", "c3"] : List String).length + 2 - 1) / 2 :=
  round_robin_balanced 2 3 ["c1", "c2", "c3"] 0 (by decide) (by decide)

/-- C6 (amended): after one retention run every raw event older than the
cutoff is gone from the raw table; and two old events sharing country
code, country name, coordinates and hour bucket are folded into a single
aggregate row with `event_count = 2` and `unique_ips` the number of
distinct source IPs among them. -/
theorem retention_same_bucket
    (rc ac hc : Nat) (cc : String) (cn : Option String) (lat lon : Option Int)
    (id1 id2 : Nat) (hn1 hn2 ip1 ip2 : String) (t1 t2 : Nat)
    (hold1 : t1 < rc) (hold2 : t2 < rc)
    (hhb : hourBucket t2 = hourBucket t1)
    (hac : ¬ hourBucket t1 < ac) :
    (∀ (db : MonitoringDB) (e : ThreatEvent), e ∈ db.events →
      e.event_time < rc → e ∉ (aggregate_old_events rc ac hc db).1.events) ∧
    aggregate_old_events rc ac hc
      ⟨[⟨id1, hn1, ip1, some cc, cn, lat, lon, t1⟩,
        ⟨id2, hn2, ip2, some cc, cn, lat, lon, t2⟩], [], []⟩ =
      (⟨[], [⟨cc, cn.getD "Unknown", hourBucket t1, 2,
              if ip1 = ip2 then 1 else 2, lat.getD 0, lon.getD 0⟩], []⟩, 2) := by
  constructor
  · intro db e he hlt hmem
    simp only [aggregate_old_events, List.mem_filter, decide_eq_true_eq] at hmem
    exact hmem.2 hlt
  · by_cases hip : ip1 = ip2 <;>
      simp [aggregate_old_events, aggKey, upsertAggregate,
        hold1, hold2, hhb, hac, hip] <;>
      omega

/-- Witness for C6 with two concrete events in the same hour bucket with
distinct source IPs. -/
theorem retention_same_bucket_witness :
    aggregate_old_events 10 0 0
      ⟨[⟨0, "h1", "1.2.3.4", some "US", some "USA", some 1, some 2, 3⟩,
        ⟨1, "h2", "5.6.7.8", some "US", some "USA", some 1, some 2, 7⟩],
       [], []⟩ =
      (⟨[], [⟨"US", (some "USA").getD "Unknown", hourBucket 3, 2,
              if ("1.2.3.4" : String) = "5.6.7.8" then 1 else 2,
              (some (1 : Int)).getD 0, (some (2 : Int)).getD 0⟩], []⟩, 2) :=
  (retention_same_bucket 10 0 0 "US" (some "USA") (some 1) (some 2)
    0 1 "h1" "h2" "1.2.3.4" "5.6.7.8" 3 7 (by decide) (by decide)
    (by decide) (by decide)).2

/-- C6 counterexample: a raw event older than the cutoff whose country
code is null is deleted by the retention job without being folded into any
aggregate — afterwards both tables are empty and the job reports zero
aggregated events, refuting the claim that every old raw event has been
folded into the (country, hour) aggregate. -/
theorem retention_null_country_cex :
    aggregate_old_events 10 0 0
      ⟨[⟨0, "host-1", "1.2.3.4", none, none, none, none, 0⟩], [], []⟩ =
      (⟨[], [], []⟩, 0) := by
  decide

/-- C1: the gateway message loop has no `service_check_result` branch: the
message falls through the type dispatch and only the connection's
`last_message` is refreshed — no `ServiceCheckResult` row appears and no
check's run state changes.  `record_result` has no caller anywhere in the
codebase, refuting the claimed forwarding to the Scheduler. -/
theorem service_check_result_ignored (hostname : String) (now : Nat)
    (results : List ResultInput) (st : GatewayState) :
    handleAgentMessage hostname now
        (InboundMsg.service_check_result results) st =
      ({ st with connLastMessage := dictSet st.connLastMessage hostname now },
       []) ∧
    (handleAgentMessage hostname now
        (InboundMsg.service_check_result results) st).1.serviceResults =
      st.serviceResults ∧
    (handleAgentMessage hostname now
        (InboundMsg.service_check_result results) st).1.checksTable =
      st.checksTable :=
  ⟨rfl, rfl, rfl⟩

/-- C2: on a checksum mismatch the agent never touches the installed
artifact, deletes the temp download and reports a failed result whose
error text names the mismatch; the server then records exactly one new
failed update-history row — but because the agent nests the payload under
a `result` key while the gateway reads top-level fields, that row carries
`error_message = None` and `unknown` versions instead of the
checksum-mismatch error. -/
theorem checksum_mismatch_update (sha : String → String) (fs : AgentFS)
    (info : UpdateInfo) (content current_version : String)
    (t0 t1 now : Nat) (hostname : String) (st : GatewayState)
    (hurl : ¬ (info.url.getD "") = "")
    (hsha : ¬ (info.sha256.getD "") = "")
    (hmm : lowerStr (sha content) ≠ lowerStr (info.sha256.getD "")) :
    (perform_update sha fs info content current_version t0 t1).1.installed =
      fs.installed ∧
    (perform_update sha fs info content current_version t0 t1).1.backup =
      fs.backup ∧
    (perform_update sha fs info content current_version t0 t1).1.tmp = none ∧
    (perform_update sha fs info content current_version t0 t1).2.success =
      false ∧
    (perform_update sha fs info content current_version t0 t1).2.error =
      some ("Checksum mismatch: expected " ++ info.sha256.getD "" ++
        ", got " ++ sha content) ∧
    (handleAgentMessage hostname now
      (InboundMsg.update_result (update_result_message
        (perform_update sha fs info content current_version t0 t1).2))
      st).1.updateHistory =
      st.updateHistory ++
        [{ agent_hostname := hostname
           from_version := JVal.jstr "unknown"
           to_version := JVal.jstr "unknown"
           success := false
           error_message := none
           started_at := now
           completed_at := now }] := by
  have hserver : ∀ r : UpdateResult,
      handleUpdateResult hostname now (update_result_message r) =
        { agent_hostname := hostname
          from_version := JVal.jstr "unknown"
          to_version := JVal.jstr "unknown"
          success := false
          error_message := none
          started_at := now
          completed_at := now } := by
    intro r
    rfl
  refine ⟨?_, ?_, ?_, ?_, ?_, ?_⟩ <;>
    simp [perform_update, handleAgentMessage, hurl, hsha, hmm, hserver]

/-- Witness for C2 at a concrete mismatching download. -/
theorem checksum_mismatch_update_witness :
    (handleAgentMessage "host-1" 3
      (InboundMsg.update_result (update_result_message
        (perform_update (fun _ => "aa") ⟨some "old", none, none⟩
          ⟨some "2.0.0", some "https://x", some "bb", []⟩ "newagent"
          "1.0.0" 1 2).2)) ⟨[], [], [], [], [], [], []⟩).1.updateHistory =
      [] ++ [{ agent_hostname := "host-1"
               from_version := JVal.jstr "unknown"
               to_version := JVal.jstr "unknown"
               success := false
               error_message := none
               started_at := 3
               completed_at := 3 }] :=
  (checksum_mismatch_update (fun _ => "aa") ⟨some "old", none, none⟩
    ⟨some "2.0.0", some "https://x", some "bb", []⟩ "newagent" "1.0.0"
    1 2 3 "host-1" ⟨[], [], [], [], [], [], []⟩
    (by decide) (by decide) (by decide)).2.2.2.2.2

lemma matchesAt_false_of_head_ne (tag : List Char) (t0 : Char)
    (htag : tag.head? = some t0) (p : Char → Bool) (c : Char)
    (ys : List Char) (hne : c ≠ t0) :
    matchesAt tag p (c :: ys) = false := by
  cases tag with
  | nil => simp at htag
  | cons t ts =>
    simp only [List.head?_cons, Option.some.injEq] at htag
    subst htag
    simp [matchesAt, List.isPrefixOf, beq_eq_false_iff_ne.mpr (Ne.symm hne)]

lemma findField_cons_skip (tag : List Char) (p : Char → Bool) (c : Char)
    (ys : List Char) (h : matchesAt tag p (c :: ys) = false) :
    findField tag p (c :: ys) = findField tag p ys := by
  simp [findField, h]

lemma findField_skip_head (tag : List Char) (t0 : Char)
    (htag : tag.head? = some t0) (p : Char → Bool) (xs ys : List Char)
    (hx : t0 ∉ xs) :
    findField tag p (xs ++ ys) = findField tag p ys := by
  induction xs with
  | nil => rfl
  | cons c xs' ih =>
    have hne : c ≠ t0 := by
      rintro rfl
      exact hx (List.mem_cons_self _ _)
    rw [List.cons_append,
      findField_cons_skip tag p c _ (matchesAt_false_of_head_ne tag t0 htag p c _ hne)]
    exact ih (fun h => hx (List.mem_cons_of_mem _ h))

lemma findField_skip_value (tag base : List Char) (p : Char → Bool)
    (htag : tag = base ++ ['='])
    (hbase1 : '=' ∉ base) (hbase2 : ' ' ∉ base)
    (v ys : List Char) (hv : '=' ∉ v) :
    findField tag p (v ++ ' ' :: ys) = findField tag p (' ' :: ys) := by
  induction v with
  | nil => rfl
  | cons c v' ih =>
    have hm : matchesAt tag p (c :: (v' ++ ' ' :: ys)) = false := by
      cases hpf : tag.isPrefixOf (c :: (v' ++ ' ' :: ys)) with
      | false => simp [matchesAt, hpf]
      | true =>
        exfalso
        obtain ⟨t, ht⟩ := List.isPrefixOf_iff_prefix.mp hpf
        rw [htag] at ht
        have ht' : (c :: v') ++ (' ' :: ys) = (base ++ ['=']) ++ t := by
          simpa using ht.symm
        rcases List.append_eq_append_iff.mp ht' with ⟨w, hw1, hw2⟩ | ⟨w, hw1, hw2⟩
        · cases w with
          | nil =>
            have : '=' ∈ (c :: v' : List Char) := by
              have hm : '=' ∈ base ++ ['='] := by simp
              rw [hw1] at hm
              simpa using hm
            exact hv this
          | cons d w' =>
            have hd : d = ' ' := by
              have := hw2
              simp only [List.cons_append] at this
              exact (List.cons.injEq _ _ _ _ ▸ this).1.symm
            subst hd
            have hsp : (' ' : Char) ∈ base ++ ['='] := by
              rw [hw1]
              simp
            rcases List.mem_append.mp hsp with h | h
            · exact hbase2 h
            · simp at h
        · have : '=' ∈ (c :: v' : List Char) := by
            have hm : '=' ∈ (base ++ ['=']) ++ w := by simp
            rw [← hw1] at hm
            exact hm
          exact hv this
    rw [List.cons_append, findField_cons_skip tag p c _ hm]
    exact ih (fun h => hv (List.mem_cons_of_mem _ h))

lemma takeWhile_value (p : Char → Bool) (v ys : List Char)
    (hvp : ∀ c ∈ v, p c = true)
    (hys : ys = [] ∨ ∃ d ys', ys = d :: ys' ∧ p d = false) :
    (v ++ ys).takeWhile p = v := by
  induction v with
  | nil =>
    rcases hys with rfl | ⟨d, ys', rfl, hd⟩
    · rfl
    · simp [List.takeWhile_cons, hd]
  | cons c v' ih =>
    simp [List.takeWhile_cons, hvp c (List.mem_cons_self _ _),
      ih (fun x hx => hvp x (List.mem_cons_of_mem _ hx))]

lemma findField_here (tag : List Char) (htag : tag ≠ []) (p : Char → Bool)
    (v ys : List Char) (hv : v ≠ []) (hvp : ∀ c ∈ v, p c = true)
    (hys : ys = [] ∨ ∃ d ys', ys = d :: ys' ∧ p d = false) :
    findField tag p (tag ++ (v ++ ys)) = some v := by
  cases tag with
  | nil => exact absurd rfl htag
  | cons t0 ts =>
    have hpre : (t0 :: ts).isPrefixOf ((t0 :: ts) ++ (v ++ ys)) = true :=
      List.isPrefixOf_iff_prefix.mpr (List.prefix_append _ _)
    have hdrop : ((t0 :: ts) ++ (v ++ ys)).drop (t0 :: ts).length = v ++ ys :=
      List.drop_left _ _
    have hm : matchesAt (t0 :: ts) p ((t0 :: ts) ++ (v ++ ys)) = true := by
      cases v with
      | nil => exact absurd rfl hv
      | cons c0 v0 =>
        have hpre' : (t0 :: ts).isPrefixOf (t0 :: (ts ++ (c0 :: (v0 ++ ys)))) =
            true := by simpa using hpre
        have hdrop2 : List.drop (t0 :: ts).length
            (t0 :: (ts ++ (c0 :: (v0 ++ ys)))) = c0 :: (v0 ++ ys) := by
          simpa using hdrop
        simp only [matchesAt, List.cons_append, hpre', hdrop2, Bool.true_and]
        exact hvp c0 (List.mem_cons_self _ _)
    have hunfold : findField (t0 :: ts) p ((t0 :: ts) ++ (v ++ ys)) =
        if matchesAt (t0 :: ts) p (t0 :: (ts ++ (v ++ ys))) then
          some (((t0 :: (ts ++ (v ++ ys))).drop (t0 :: ts).length).takeWhile p)
        else findField (t0 :: ts) p (ts ++ (v ++ ys)) := rfl
    rw [hunfold, if_pos (by simpa using hm)]
    have hdrop' : (t0 :: (ts ++ (v ++ ys))).drop (t0 :: ts).length = v ++ ys := by
      simpa using hdrop
    rw [hdrop', takeWhile_value p v ys hvp hys]

lemma matchesAt_false_of_second_ne (t0 t1 : Char) (ts : List Char)
    (p : Char → Bool) (c1 : Char) (zs : List Char) (hne : c1 ≠ t1) :
    matchesAt (t0 :: t1 :: ts) p (t0 :: c1 :: zs) = false := by
  simp [matchesAt, List.isPrefixOf, beq_eq_false_iff_ne.mpr (Ne.symm hne)]

lemma findField_src (src dst spt dpt proto : List Char)
    (hsrc : src ≠ []) (hsrcS : ∀ c ∈ src, isSpaceChar c = false) :
    findField "SRC=".toList (fun c => ! isSpaceChar c)
      (ufwLine src dst spt dpt proto) = some src :=
  calc findField "SRC=".toList (fun c => ! isSpaceChar c)
        (ufwLine src dst spt dpt proto)
      = findField "SRC=".toList (fun c => ! isSpaceChar c)
          (ufwRest1 src dst spt dpt proto) :=
        findField_skip_head "SRC=".toList 'S' rfl _ "[UFW BLOCK] IN=eth0 OUT= ".toList _
          (by decide)
    _ = some src :=
        findField_here "SRC=".toList (by decide) _ src (' ' :: ufwRest2 dst spt dpt proto)
          hsrc (fun c hc => by simp [hsrcS c hc])
          (Or.inr ⟨' ', ufwRest2 dst spt dpt proto, rfl, by decide⟩)

lemma findField_dst (src dst spt dpt proto : List Char)
    (hdst : dst ≠ []) (hdstS : ∀ c ∈ dst, isSpaceChar c = false)
    (hsrcE : '=' ∉ src) :
    findField "DST=".toList (fun c => ! isSpaceChar c)
      (ufwLine src dst spt dpt proto) = some dst :=
  calc findField "DST=".toList (fun c => ! isSpaceChar c)
        (ufwLine src dst spt dpt proto)
      = findField "DST=".toList (fun c => ! isSpaceChar c)
          (ufwRest1 src dst spt dpt proto) :=
        findField_skip_head "DST=".toList 'D' rfl _ "[UFW BLOCK] IN=eth0 OUT= ".toList _
          (by decide)
    _ = findField "DST=".toList (fun c => ! isSpaceChar c)
          (src ++ (' ' :: ufwRest2 dst spt dpt proto)) :=
        findField_skip_head "DST=".toList 'D' rfl _ ['S', 'R', 'C', '='] _ (by decide)
    _ = findField "DST=".toList (fun c => ! isSpaceChar c)
          (' ' :: ufwRest2 dst spt dpt proto) :=
        findField_skip_value _ "DST".toList _ rfl (by decide) (by decide)
          src _ hsrcE
    _ = findField "DST=".toList (fun c => ! isSpaceChar c)
          (ufwRest2 dst spt dpt proto) :=
        findField_skip_head "DST=".toList 'D' rfl _ [' '] _ (by decide)
    _ = some dst :=
        findField_here "DST=".toList (by decide) _ dst (' ' :: ufwRest3 spt dpt proto)
          hdst (fun c hc => by simp [hdstS c hc])
          (Or.inr ⟨' ', ufwRest3 spt dpt proto, rfl, by decide⟩)

lemma findField_spt (src dst spt dpt proto : List Char)
    (hspt : spt ≠ []) (hsptD : ∀ c ∈ spt, c.isDigit = true)
    (hsrcE : '=' ∉ src) (hdstE : '=' ∉ dst) :
    findField "SPT=".toList (fun c => c.isDigit)
      (ufwLine src dst spt dpt proto) = some spt :=
  calc findField "SPT=".toList (fun c => c.isDigit)
        (ufwLine src dst spt dpt proto)
      = findField "SPT=".toList (fun c => c.isDigit)
          (ufwRest1 src dst spt dpt proto) :=
        findField_skip_head "SPT=".toList 'S' rfl _ "[UFW BLOCK] IN=eth0 OUT= ".toList _
          (by decide)
    _ = findField "SPT=".toList (fun c => c.isDigit)
          ('R' :: 'C' :: '=' ::(src ++ (' ' :: ufwRest2 dst spt dpt proto))) :=
        findField_cons_skip _ _ 'S' _
          (matchesAt_false_of_second_ne 'S' 'P' _ _ 'R' _ (by decide))
    _ = findField "SPT=".toList (fun c => c.isDigit)
          (src ++ (' ' :: ufwRest2 dst spt dpt proto)) :=
        findField_skip_head "SPT=".toList 'S' rfl _ ['R', 'C', '='] _ (by decide)
    _ = findField "SPT=".toList (fun c => c.isDigit)
          (' ' :: ufwRest2 dst spt dpt proto) :=
        findField_skip_value _ "SPT".toList _ rfl (by decide) (by decide)
          src _ hsrcE
    _ = findField "SPT=".toList (fun c => c.isDigit)
          (ufwRest2 dst spt dpt proto) :=
        findField_skip_head "SPT=".toList 'S' rfl _ [' '] _ (by decide)
    _ = findField "SPT=".toList (fun c => c.isDigit)
          ('S' :: 'T' :: '=' ::(dst ++ (' ' :: ufwRest3 spt dpt proto))) :=
        findField_skip_head "SPT=".toList 'S' rfl _ ['D'] _ (by decide)
    _ = findField "SPT=".toList (fun c => c.isDigit)
          ('T' :: '=' ::(dst ++ (' ' :: ufwRest3 spt dpt proto))) :=
        findField_cons_skip _ _ 'S' _
          (matchesAt_false_of_second_ne 'S' 'P' _ _ 'T' _ (by decide))
    _ = findField "SPT=".toList (fun c => c.isDigit)
          (dst ++ (' ' :: ufwRest3 spt dpt proto)) :=
        findField_skip_head "SPT=".toList 'S' rfl _ ['T', '='] _ (by decide)
    _ = findField "SPT=".toList (fun c => c.isDigit)
          (' ' :: ufwRest3 spt dpt proto) :=
        findField_skip_value _ "SPT".toList _ rfl (by decide) (by decide)
          dst _ hdstE
    _ = findField "SPT=".toList (fun c => c.isDigit)
          (ufwRest3 spt dpt proto) :=
        findField_skip_head "SPT=".toList 'S' rfl _ [' '] _ (by decide)
    _ = some spt :=
        findField_here "SPT=".toList (by decide) _ spt (' ' :: ufwRest4 dpt proto)
          hspt hsptD (Or.inr ⟨' ', ufwRest4 dpt proto, rfl, by decide⟩)

lemma findField_dpt (src dst spt dpt proto : List Char)
    (hdpt : dpt ≠ []) (hdptD : ∀ c ∈ dpt, c.isDigit = true)
    (hsrcE : '=' ∉ src) (hdstE : '=' ∉ dst) (hsptE : '=' ∉ spt) :
    findField "DPT=".toList (fun c => c.isDigit)
      (ufwLine src dst spt dpt proto) = some dpt :=
  calc findField "DPT=".toList (fun c => c.isDigit)
        (ufwLine src dst spt dpt proto)
      = findField "DPT=".toList (fun c => c.isDigit)
          (ufwRest1 src dst spt dpt proto) :=
        findField_skip_head "DPT=".toList 'D' rfl _ "[UFW BLOCK] IN=eth0 OUT= ".toList _
          (by decide)
    _ = findField "DPT=".toList (fun c => c.isDigit)
          (src ++ (' ' :: ufwRest2 dst spt dpt proto)) :=
        findField_skip_head "DPT=".toList 'D' rfl _ ['S', 'R', 'C', '='] _ (by decide)
    _ = findField "DPT=".toList (fun c => c.isDigit)
          (' ' :: ufwRest2 dst spt dpt proto) :=
        findField_skip_value _ "DPT".toList _ rfl (by decide) (by decide)
          src _ hsrcE
    _ = findField "DPT=".toList (fun c => c.isDigit)
          (ufwRest2 dst spt dpt proto) :=
        findField_skip_head "DPT=".toList 'D' rfl _ [' '] _ (by decide)
    _ = findField "DPT=".toList (fun c => c.isDigit)
          ('S' :: 'T' :: '=' ::(dst ++ (' ' :: ufwRest3 spt dpt proto))) :=
        findField_cons_skip _ _ 'D' _
          (matchesAt_false_of_second_ne 'D' 'P' _ _ 'S' _ (by decide))
    _ = findField "DPT=".toList (fun c => c.isDigit)
          (dst ++ (' ' :: ufwRest3 spt dpt proto)) :=
        findField_skip_head "DPT=".toList 'D' rfl _ ['S', 'T', '='] _ (by decide)
    _ = findField "DPT=".toList (fun c => c.isDigit)
          (' ' :: ufwRest3 spt dpt proto) :=
        findField_skip_value _ "DPT".toList _ rfl (by decide) (by decide)
          dst _ hdstE
    _ = findField "DPT=".toList (fun c => c.isDigit)
          (ufwRest3 spt dpt proto) :=
        findField_skip_head "DPT=".toList 'D' rfl _ [' '] _ (by decide)
    _ = findField "DPT=".toList (fun c => c.isDigit)
          (spt ++ (' ' :: ufwRest4 dpt proto)) :=
        findField_skip_head "DPT=".toList 'D' rfl _ ['S', 'P', 'T', '='] _ (by decide)
    _ = findField "DPT=".toList (fun c => c.isDigit)
          (' ' :: ufwRest4 dpt proto) :=
        findField_skip_value _ "DPT".toList _ rfl (by decide) (by decide)
          spt _ hsptE
    _ = findField "DPT=".toList (fun c => c.isDigit)
          (ufwRest4 dpt proto) :=
        findField_skip_head "DPT=".toList 'D' rfl _ [' '] _ (by decide)
    _ = some dpt :=
        findField_here "DPT=".toList (by decide) _ dpt
          (' ' :: ('P' :: 'R' :: 'O' :: 'T' :: 'O' :: '=' ::proto)) hdpt hdptD
          (Or.inr ⟨' ', 'P' :: 'R' :: 'O' :: 'T' :: 'O' :: '=' ::proto, rfl, by decide⟩)

lemma findField_proto (src dst spt dpt proto : List Char)
    (hproto : proto ≠ []) (hprotoS : ∀ c ∈ proto, isSpaceChar c = false)
    (hsrcE : '=' ∉ src) (hdstE : '=' ∉ dst) (hsptE : '=' ∉ spt)
    (hdptE : '=' ∉ dpt) :
    findField "PROTO=".toList (fun c => ! isSpaceChar c)
      (ufwLine src dst spt dpt proto) = some proto :=
  calc findField "PROTO=".toList (fun c => ! isSpaceChar c)
        (ufwLine src dst spt dpt proto)
      = findField "PROTO=".toList (fun c => ! isSpaceChar c)
          (ufwRest1 src dst spt dpt proto) :=
        findField_skip_head "PROTO=".toList 'P' rfl _ "[UFW BLOCK] IN=eth0 OUT= ".toList _
          (by decide)
    _ = findField "PROTO=".toList (fun c => ! isSpaceChar c)
          (src ++ (' ' :: ufwRest2 dst spt dpt proto)) :=
        findField_skip_head "PROTO=".toList 'P' rfl _ ['S', 'R', 'C', '='] _ (by decide)
    _ = findField "PROTO=".toList (fun c => ! isSpaceChar c)
          (' ' :: ufwRest2 dst spt dpt proto) :=
        findField_skip_value _ "PROTO".toList _ rfl (by decide) (by decide)
          src _ hsrcE
    _ = findField "PROTO=".toList (fun c => ! isSpaceChar c)
          (ufwRest2 dst spt dpt proto) :=
        findField_skip_head "PROTO=".toList 'P' rfl _ [' '] _ (by decide)
    _ = findField "PROTO=".toList (fun c => ! isSpaceChar c)
          (dst ++ (' ' :: ufwRest3 spt dpt proto)) :=
        findField_skip_head "PROTO=".toList 'P' rfl _ ['D', 'S', 'T', '='] _ (by decide)
    _ = findField "PROTO=".toList (fun c => ! isSpaceChar c)
          (' ' :: ufwRest3 spt dpt proto) :=
        findField_skip_value _ "PROTO".toList _ rfl (by decide) (by decide)
          dst _ hdstE
    _ = findField "PROTO=".toList (fun c => ! isSpaceChar c)
          (ufwRest3 spt dpt proto) :=
        findField_skip_head "PROTO=".toList 'P' rfl _ [' '] _ (by decide)
    _ = findField "PROTO=".toList (fun c => ! isSpaceChar c)
          ('P' :: 'T' :: '=' ::(spt ++ (' ' :: ufwRest4 dpt proto))) :=
        findField_skip_head "PROTO=".toList 'P' rfl _ ['S'] _ (by decide)
    _ = findField "PROTO=".toList (fun c => ! isSpaceChar c)
          ('T' :: '=' ::(spt ++ (' ' :: ufwRest4 dpt proto))) :=
        findField_cons_skip _ _ 'P' _
          (matchesAt_false_of_second_ne 'P' 'R' _ _ 'T' _ (by decide))
    _ = findField "PROTO=".toList (fun c => ! isSpaceChar c)
          (spt ++ (' ' :: ufwRest4 dpt proto)) :=
        findField_skip_head "PROTO=".toList 'P' rfl _ ['T', '='] _ (by decide)
    _ = findField "PROTO=".toList (fun c => ! isSpaceChar c)
          (' ' :: ufwRest4 dpt proto) :=
        findField_skip_value _ "PROTO".toList _ rfl (by decide) (by decide)
          spt _ hsptE
    _ = findField "PROTO=".toList (fun c => ! isSpaceChar c)
          (ufwRest4 dpt proto) :=
        findField_skip_head "PROTO=".toList 'P' rfl _ [' '] _ (by decide)
    _ = findField "PROTO=".toList (fun c => ! isSpaceChar c)
          ('P' :: 'T' :: '=' ::(dpt ++ (' ' :: ('P' :: 'R' :: 'O' :: 'T' :: 'O' :: '=' ::proto)))) :=
        findField_skip_head "PROTO=".toList 'P' rfl _ ['D'] _ (by decide)
    _ = findField "PROTO=".toList (fun c => ! isSpaceChar c)
          ('T' :: '=' ::(dpt ++ (' ' :: ('P' :: 'R' :: 'O' :: 'T' :: 'O' :: '=' ::proto)))) :=
        findField_cons_skip _ _ 'P' _
          (matchesAt_false_of_second_ne 'P' 'R' _ _ 'T' _ (by decide))
    _ = findField "PROTO=".toList (fun c => ! isSpaceChar c)
          (dpt ++ (' ' :: ('P' :: 'R' :: 'O' :: 'T' :: 'O' :: '=' ::proto))) :=
        findField_skip_head "PROTO=".toList 'P' rfl _ ['T', '='] _ (by decide)
    _ = findField "PROTO=".toList (fun c => ! isSpaceChar c)
          (' ' :: ('P' :: 'R' :: 'O' :: 'T' :: 'O' :: '=' ::proto)) :=
        findField_skip_value _ "PROTO".toList _ rfl (by decide) (by decide)
          dpt _ hdptE
    _ = findField "PROTO=".toList (fun c => ! isSpaceChar c)
          ('P' :: 'R' :: 'O' :: 'T' :: 'O' :: '=' ::proto) :=
        findField_skip_head "PROTO=".toList 'P' rfl _ [' '] _ (by decide)
    _ = findField "PROTO=".toList (fun c => ! isSpaceChar c)
          ('P' :: 'R' :: 'O' :: 'T' :: 'O' :: '=' ::(proto ++ ([] : List Char))) := by
        rw [List.append_nil]
    _ = some proto :=
        findField_here "PROTO=".toList (by decide) _ proto []
          hproto (fun c hc => by simp [hprotoS c hc]) (Or.inl rfl)

lemma findField_none_of_not_infix (tag : List Char) (p : Char → Bool)
    (l : List Char) (h : ¬ tag <:+: l) :
    findField tag p l = none := by
  induction l with
  | nil => rfl
  | cons c rest ih =>
    have hm : matchesAt tag p (c :: rest) = false := by
      cases hpf : tag.isPrefixOf (c :: rest) with
      | false => simp [matchesAt, hpf]
      | true => exact absurd (List.isPrefixOf_iff_prefix.mp hpf).isInfix h
    rw [findField_cons_skip _ _ _ _ hm]
    exact ih (fun hinf => h (List.infix_cons hinf))

/-- C7: a canonical UFW block line containing the marker and the `SRC=`,
`DST=`, `SPT=`, `DPT=`, `PROTO=` fields parses to an entry carrying
exactly those field values; and any line in which the `SRC=` search fails
(in particular any line not containing `SRC=`) yields no event. -/
theorem ufw_parser_extracts_fields (tsVal : Nat)
    (src dst spt dpt proto : List Char)
    (hsrc : src ≠ []) (hdst : dst ≠ []) (hspt : spt ≠ []) (hdpt : dpt ≠ [])
    (hproto : proto ≠ [])
    (hsrcS : ∀ c ∈ src, isSpaceChar c = false) (hsrcE : '=' ∉ src)
    (hdstS : ∀ c ∈ dst, isSpaceChar c = false) (hdstE : '=' ∉ dst)
    (hsptD : ∀ c ∈ spt, c.isDigit = true) (hsptE : '=' ∉ spt)
    (hdptD : ∀ c ∈ dpt, c.isDigit = true) (hdptE : '=' ∉ dpt)
    (hprotoS : ∀ c ∈ proto, isSpaceChar c = false) :
    parse_ufw_log tsVal (ufwLine src dst spt dpt proto) =
      some { timestamp := tsVal
             source_ip := src
             source_port := some (digitsToNat spt)
             dest_ip := some dst
             dest_port := some (digitsToNat dpt)
             protocol := some proto
             raw_log := ufwLine src dst spt dpt proto } ∧
    (∀ line : List Char, ¬ ("SRC=".toList <:+: line) →
      parse_ufw_log tsVal line = none) := by
  constructor
  · have hmark : "[UFW BLOCK]".toList <:+: ufwLine src dst spt dpt proto :=
      ⟨[], " IN=eth0 OUT= ".toList ++ ufwRest1 src dst spt dpt proto, rfl⟩
    simp only [parse_ufw_log]
    rw [if_neg (not_not_intro hmark),
      findField_src src dst spt dpt proto hsrc hsrcS,
      findField_spt src dst spt dpt proto hspt hsptD hsrcE hdstE,
      findField_dst src dst spt dpt proto hdst hdstS hsrcE,
      findField_dpt src dst spt dpt proto hdpt hdptD hsrcE hdstE hsptE,
      findField_proto src dst spt dpt proto hproto hprotoS hsrcE hdstE
        hsptE hdptE]
    rfl
  · intro line hno
    by_cases hmark : "[UFW BLOCK]".toList <:+: line
    · simp only [parse_ufw_log]
      rw [if_neg (not_not_intro hmark),
        findField_none_of_not_infix _ _ _ hno]
    · simp only [parse_ufw_log]
      rw [if_pos hmark]

/-- Witness for C7 at a concrete block line. -/
theorem ufw_parser_extracts_fields_witness :
    parse_ufw_log 5 (ufwLine "1.2.3.4".toList "5.6.7.8".toList
      "4444".toList "22".toList "TCP".toList) =
      some { timestamp := 5
             source_ip := "1.2.3.4".toList
             source_port := some (digitsToNat "4444".toList)
             dest_ip := some "5.6.7.8".toList
             dest_port := some (digitsToNat "22".toList)
             protocol := some "TCP".toList
             raw_log := ufwLine "1.2.3.4".toList "5.6.7.8".toList
               "4444".toList "22".toList "TCP".toList } :=
  (ufw_parser_extracts_fields 5 "1.2.3.4".toList "5.6.7.8".toList
    "4444".toList "22".toList "TCP".toList
    (by decide) (by decide) (by decide) (by decide) (by decide)
    (by decide) (by decide) (by decide) (by decide) (by decide)
    (by decide) (by decide) (by decide) (by decide)).1

end SituationRoom
